import Mathlib

/-!
# Photo Size Reducer — verification of the engine

Shallow embedding of the resize / size-estimation / dimension-solver engine of
the Photo Size Reducer repository (`photo_reducer.py` and
`cli_photo_reducer.py`).

Modelling conventions:

* Python float arithmetic on image-dimension quantities is modelled exactly by
  the rationals `ℚ`.
* Python `int()` truncates toward zero; every call site in the engine applies
  it to a nonnegative quantity, where truncation coincides with the floor.
  `pyInt` below is that operation.
* The size estimator (`estimate_file_size`, which performs a real resize and
  in-memory encode through the PIL codec) is abstracted as an arbitrary
  function `E : ℕ → ℕ → ℚ` from the requested width/height to the encoded
  size in KB.  Theorems about the solver quantify over all such `E`.
* UI plumbing (widgets, preview, message boxes) is out of scope; the preview
  refresh triggered after the solver finishes is not modelled.  The estimator
  call embedded in the confirmation dialog text of `calculate_dimensions`
  (photo_reducer.py line 379) *is* modelled, because it is a direct call made
  by the solver function itself.
-/

namespace PhotoReducer

/-- Python `int()` applied to a nonnegative rational: truncation toward zero,
which coincides with the floor on nonnegative values.  Every use below is on a
nonnegative quantity. -/
def pyInt (q : ℚ) : ℕ := (⌊q⌋).toNat

/-- Error taxonomy of the engine (spec section 7).  `invalidTarget` is the
"Invalid Size: target must be greater than 0 KB" branch of
`calculate_dimensions`; `invalidGeometry` is the "Invalid Size: width and
height must be positive" branch of `process_images`. -/
inductive Err where
  | invalidTarget
  | invalidGeometry
deriving DecidableEq, Repr

/-- Dimension computation shared verbatim by `resize_image`
(cli_photo_reducer.py lines 32–45) and `_process_images_thread`
(photo_reducer.py lines 489–502):

    if maintain_aspect_ratio:
        img_ratio = img.width / img.height
        if img_ratio > 1:
            new_width = width
            new_height = int(width / img_ratio)
        else:
            new_height = height
            new_width = int(height * img_ratio)
    else:
        new_width = width
        new_height = height

`W H` are the original image dimensions, `tw th` the requested target box. -/
def resize_image_dims (W H tw th : ℕ) (maintainAspect : Bool) : ℕ × ℕ :=
  if maintainAspect then
    let imgRat : ℚ := (W : ℚ) / (H : ℚ)
    if 1 < imgRat then
      (tw, pyInt ((tw : ℚ) / imgRat))
    else
      (pyInt ((th : ℚ) * imgRat), th)
  else
    (tw, th)

/-- Dimension selection inside `estimate_file_size` (photo_reducer.py lines
252–269): same aspect logic as `resize_image_dims`, followed by

    new_width = min(new_width, self.current_img.width)
    new_height = min(new_height, self.current_img.height)

i.e. each axis is additionally clamped to the original. -/
def estimate_file_size_dims (W H tw th : ℕ) (maintainAspect : Bool) : ℕ × ℕ :=
  let d := resize_image_dims W H tw th maintainAspect
  (min d.1 W, min d.2 H)

/-- The Resizer formula exactly as the spec words it (spec section 4.1), with
`round` as rounding to the nearest integer: if `ratio > 1` then
`(TW, round(TW / ratio))` else `(round(TH * ratio), TH)`.  Written from the
spec's words, for comparison against `resize_image_dims`. -/
def resize_spec_round (W H tw th : ℕ) : ℤ × ℤ :=
  if 1 < (W : ℚ) / (H : ℚ) then
    ((tw : ℤ), round ((tw : ℚ) / ((W : ℚ) / (H : ℚ))))
  else
    (round ((th : ℚ) * ((W : ℚ) / (H : ℚ))), (th : ℤ))

/-- The Resizer formula as amended: truncation (`int`, floor on nonnegative
values) in place of rounding to nearest: if `ratio > 1` then
`(TW, int(TW / ratio))` else `(int(TH * ratio), TH)`. -/
def resize_spec_trunc (W H tw th : ℕ) : ℕ × ℕ :=
  if 1 < (W : ℚ) / (H : ℚ) then
    (tw, pyInt ((tw : ℚ) / ((W : ℚ) / (H : ℚ))))
  else
    (pyInt ((th : ℚ) * ((W : ℚ) / (H : ℚ))), th)

/-- The target-box validation of `process_images` (photo_reducer.py lines
458–466): after parsing width and height, `if width <= 0 or height <= 0`
report "Invalid Size" and return without processing. -/
def process_images_check (w h : ℤ) : Option Err :=
  if w ≤ 0 ∨ h ≤ 0 then some Err.invalidGeometry else none

/-- State of the binary search of `calculate_dimensions` (photo_reducer.py
lines 335–360).  `bestDiff = none` models the initial `float('inf')`, and
`calls` records the `(test_width, test_height)` argument of every
`estimate_file_size` invocation made so far, in order. -/
structure SearchState where
  minScale : ℚ
  maxScale : ℚ
  bestScale : ℚ
  bestDiff : Option ℚ
  calls : List (ℕ × ℕ)
deriving DecidableEq, Repr

/-- `diff < best_diff` where `best_diff` may be the initial `float('inf)`. -/
def diffImproves (d : ℚ) : Option ℚ → Bool
  | none => true
  | some b => d < b

/-- One iteration of the search loop (photo_reducer.py lines 341–360):

    scale = (min_scale + max_scale) / 2
    test_width = int(original_width * scale)
    test_height = int(original_height * scale)
    test_width = max(10, test_width)
    test_height = max(10, test_height)
    size_kb = self.estimate_file_size(test_width, test_height, quality)
    diff = abs(size_kb - target_kb)
    if diff < best_diff:
        best_diff = diff
        best_scale = scale
    if size_kb > target_kb:
        max_scale = scale
    else:
        min_scale = scale

`E` abstracts `estimate_file_size` at the fixed quality. -/
def searchStep (E : ℕ → ℕ → ℚ) (W H : ℕ) (targetKb : ℚ) (s : SearchState) :
    SearchState :=
  let scale := (s.minScale + s.maxScale) / 2
  let testW := max 10 (pyInt ((W : ℚ) * scale))
  let testH := max 10 (pyInt ((H : ℚ) * scale))
  let sizeKb := E testW testH
  let diff := |sizeKb - targetKb|
  let best :=
    if diffImproves diff s.bestDiff then (some diff, scale)
    else (s.bestDiff, s.bestScale)
  let bounds :=
    if targetKb < sizeKb then (s.minScale, scale) else (scale, s.maxScale)
  { minScale := bounds.1, maxScale := bounds.2,
    bestScale := best.2, bestDiff := best.1,
    calls := s.calls ++ [(testW, testH)] }

/-- `n` iterations of the search loop (`for _ in range(10)`). -/
def searchRun (E : ℕ → ℕ → ℚ) (W H : ℕ) (targetKb : ℚ) :
    ℕ → SearchState → SearchState
  | 0, s => s
  | n + 1, s => searchRun E W H targetKb n (searchStep E W H targetKb s)

/-- Search state at loop entry (photo_reducer.py lines 336–339):
`min_scale = 0.01`, `max_scale = 1.0`, `best_scale = 0.5`,
`best_diff = float('inf')`, no estimator calls made inside the loop yet. -/
def initialSearchState : SearchState :=
  { minScale := 1 / 100, maxScale := 1, bestScale := 1 / 2,
    bestDiff := none, calls := [] }

/-- Result of `calculate_dimensions`: the resolved dimensions (the values
written into `width_var` / `height_var`) and the full ordered list of
`estimate_file_size` call arguments the function made. -/
structure SolveResult where
  dims : ℕ × ℕ
  calls : List (ℕ × ℕ)
deriving DecidableEq, Repr

/-- `calculate_dimensions` (photo_reducer.py lines 305–382), the
DimensionSolver.  Embedded control flow:

* `if target_kb <= 0` → "Invalid Size" error, nothing else happens;
* `initial_size = estimate_file_size(original_width, original_height, quality)`
  — the fast-path probe;
* `if initial_size <= target_kb` → keep the original dimensions, return;
* otherwise run the 10-iteration binary search, apply
  `new_width = max(10, int(original_width * best_scale))` (and likewise for
  the height), and finally call `estimate_file_size(new_width, new_height,
  quality)` once more for the confirmation-dialog text (line 379).

The preview-refresh side channel (`update_preview`, UI plumbing declared out
of scope by the spec) is not modelled.  Per-call GUI state is modelled by
`calculate_dimensions_state` below. -/
def calculate_dimensions (E : ℕ → ℕ → ℚ) (targetKb : ℚ) (W H : ℕ) :
    Except Err SolveResult :=
  if targetKb ≤ 0 then Except.error Err.invalidTarget
  else
    let initialSize := E W H
    if initialSize ≤ targetKb then Except.ok ⟨(W, H), [(W, H)]⟩
    else
      let s := searchRun E W H targetKb 10 initialSearchState
      let newW := max 10 (pyInt ((W : ℚ) * s.bestScale))
      let newH := max 10 (pyInt ((H : ℚ) * s.bestScale))
      let _shownSize := E newW newH
      Except.ok ⟨(newW, newH), (W, H) :: s.calls ++ [(newW, newH)]⟩

/-- `calculate_dimensions` seen through the caller-visible output state: `st`
is the `(width_var, height_var)` pair before the call.  Error branches of the
source (`target_kb <= 0`, there lines 313–315) return before any assignment
to `width_var` / `height_var`; success branches assign the resolved
dimensions (lines 329–330 and 367–368). -/
def calculate_dimensions_state (E : ℕ → ℕ → ℚ) (targetKb : ℚ) (W H : ℕ)
    (st : ℕ × ℕ) : (ℕ × ℕ) × Option Err :=
  match calculate_dimensions E targetKb W H with
  | Except.error e => (st, some e)
  | Except.ok r => (r.dims, none)

/-- Invariant of the search state: all three scale factors stay inside
`[0, 1]` and the bracket is ordered.  Holds at `initialSearchState` and is
preserved by `searchStep`. -/
def ScaleInv (s : SearchState) : Prop :=
  0 ≤ s.minScale ∧ s.minScale ≤ s.maxScale ∧ s.maxScale ≤ 1 ∧
    0 ≤ s.bestScale ∧ s.bestScale ≤ 1

/-- An image as `resize_image` sees it after `Image.open`. -/
structure PyImage where
  width : ℕ
  height : ℕ
deriving DecidableEq, Repr

/-- Outcomes of the external PIL operations invoked inside the `try` block of
`resize_image` (cli_photo_reducer.py lines 27–59): `Image.open` may raise (or
yields an image), and the resize-then-save sequence may raise depending on
the computed dimensions.  An `Except.error m` models a raised exception whose
`str` is `m`. -/
structure PilEnv where
  openResult : Except String PyImage
  resizeSaveResult : ℕ × ℕ → Except String Unit

/-- The `try` block of `resize_image`: open the image, compute the new
dimensions (`img.width / img.height` raises ZeroDivisionError when the opened
image has height 0 and the aspect branch is taken), resize and save.  Any
raised exception propagates out of this body to the handler in
`resize_image`. -/
def resize_image_body (env : PilEnv) (width height : ℕ)
    (maintainAspect : Bool) : Except String Unit := do
  let img ← env.openResult
  if maintainAspect ∧ img.height = 0 then
    Except.error "division by zero"
  else
    env.resizeSaveResult
      (resize_image_dims img.width img.height width height maintainAspect)

/-- `resize_image` (cli_photo_reducer.py lines 12–59): the whole body is one
`try`; on success it returns `(True, None)`, and `except Exception as e`
returns `(False, str(e))`. -/
def resize_image (env : PilEnv) (width height : ℕ) (maintainAspect : Bool) :
    Bool × Option String :=
  match resize_image_body env width height maintainAspect with
  | Except.ok _ => (true, none)
  | Except.error e => (false, some e)

/-! ## Helper lemmas -/

theorem pyInt_le_of_le (n : ℕ) (q : ℚ) (h : q ≤ (n : ℚ)) : pyInt q ≤ n := by
  unfold pyInt
  rw [Int.toNat_le]
  exact le_trans (Int.floor_le_floor h) (by simp)

theorem one_le_pyInt (q : ℚ) (h : 1 ≤ q) : 1 ≤ pyInt q := by
  unfold pyInt
  have h1 : (1 : ℤ) ≤ ⌊q⌋ := Int.le_floor.mpr (by exact_mod_cast h)
  omega

theorem searchStep_inv (E : ℕ → ℕ → ℚ) (W H : ℕ) (t : ℚ) (s : SearchState)
    (h : ScaleInv s) : ScaleInv (searchStep E W H t s) := by
  obtain ⟨h0, h1, h2, h3, h4⟩ := h
  have hs1 : s.minScale ≤ (s.minScale + s.maxScale) / 2 := by linarith
  have hs2 : (s.minScale + s.maxScale) / 2 ≤ s.maxScale := by linarith
  unfold searchStep ScaleInv
  dsimp only
  split_ifs <;>
    exact ⟨by linarith, by linarith, by linarith, by linarith, by linarith⟩

theorem searchRun_inv (E : ℕ → ℕ → ℚ) (W H : ℕ) (t : ℚ) (n : ℕ)
    (s : SearchState) (h : ScaleInv s) : ScaleInv (searchRun E W H t n s) := by
  induction n generalizing s with
  | zero => exact h
  | succ n ih => exact ih _ (searchStep_inv E W H t s h)

theorem searchRun_calls_length (E : ℕ → ℕ → ℚ) (W H : ℕ) (t : ℚ) (n : ℕ)
    (s : SearchState) :
    (searchRun E W H t n s).calls.length = s.calls.length + n := by
  induction n generalizing s with
  | zero => rfl
  | succ n ih =>
    rw [searchRun, ih]
    simp [searchStep]
    omega

theorem searchRun_calls_floor (E : ℕ → ℕ → ℚ) (W H : ℕ) (t : ℚ) (n : ℕ)
    (s : SearchState) (h : ∀ p ∈ s.calls, 10 ≤ p.1 ∧ 10 ≤ p.2) :
    ∀ p ∈ (searchRun E W H t n s).calls, 10 ≤ p.1 ∧ 10 ≤ p.2 := by
  induction n generalizing s with
  | zero => exact h
  | succ n ih =>
    refine ih _ ?_
    intro p hp
    simp only [searchStep, List.mem_append, List.mem_singleton] at hp
    rcases hp with hp | hp
    · exact h p hp
    · subst hp
      exact ⟨le_max_left _ _, le_max_left _ _⟩

/-! ## The claims -/

/-- Claim C1: fast path of the solver: for every estimator `E`, every image
`W × H` and every positive `target_kb`, if the estimate at the original
dimensions is at most the target then `calculate_dimensions` returns the
original dimensions unchanged and its only estimator call is that initial
probe. -/
theorem c1_fast_path (E : ℕ → ℕ → ℚ) (targetKb : ℚ) (W H : ℕ)
    (hpos : 0 < targetKb) (hle : E W H ≤ targetKb) :
    calculate_dimensions E targetKb W H = Except.ok ⟨(W, H), [(W, H)]⟩ := by
  simp only [calculate_dimensions]
  rw [if_neg (not_le.mpr hpos), if_pos hle]

/-- Witness for C1: a 100×50 image whose constant estimator reports 1 KB
against a 5 KB target takes the fast path. -/
theorem c1_fast_path_witness :
    calculate_dimensions (fun _ _ => 1) 5 100 50 =
      Except.ok ⟨(100, 50), [(100, 50)]⟩ :=
  c1_fast_path (fun _ _ => 1) 5 100 50 (by norm_num) (by norm_num)

/-- Claim C8: a target budget `≤ 0` makes `calculate_dimensions` fail with the
`InvalidTarget` condition, leaving the caller-visible `(width_var,
height_var)` state unchanged, for every estimator, image and prior state. -/
theorem c8_invalid_target (E : ℕ → ℕ → ℚ) (targetKb : ℚ) (W H : ℕ)
    (st : ℕ × ℕ) (h : targetKb ≤ 0) :
    calculate_dimensions_state E targetKb W H st =
      (st, some Err.invalidTarget) := by
  simp only [calculate_dimensions_state, calculate_dimensions, if_pos h]

/-- Witness for C8: a zero target with state `(3, 4)` errors and keeps
`(3, 4)`. -/
theorem c8_invalid_target_witness :
    calculate_dimensions_state (fun _ _ => 1) 0 800 600 (3, 4) =
      ((3, 4), some Err.invalidTarget) :=
  c8_invalid_target (fun _ _ => 1) 0 800 600 (3, 4) le_rfl

/-- Claim C9: the geometry validation of `process_images` fails — with the
`InvalidGeometry` condition — exactly when a dimension of the requested
target box is non-positive; in particular the box `(0, 500)` is rejected. -/
theorem c9_invalid_geometry (w h : ℤ) :
    (process_images_check w h = some Err.invalidGeometry ↔ w ≤ 0 ∨ h ≤ 0) ∧
      process_images_check 0 500 = some Err.invalidGeometry := by
  refine ⟨?_, by decide⟩
  unfold process_images_check
  split_ifs with hc
  · simp [hc]
  · simp [hc]

/-- Claim C10: `resize_image` is total at its interface: whatever the PIL
operations do, it returns `(True, None)` on success or `(False, m)` with `m`
the exception text, and never propagates an exception. -/
theorem c10_resize_image_total (env : PilEnv) (width height : ℕ)
    (maintainAspect : Bool) :
    resize_image env width height maintainAspect = (true, none) ∨
      ∃ m, resize_image env width height maintainAspect = (false, some m) := by
  unfold resize_image
  cases hbody : resize_image_body env width height maintainAspect with
  | ok u => exact Or.inl rfl
  | error e => exact Or.inr ⟨e, rfl⟩

/-- Counterexample for C3: at original 2000×1000 and target box 799×600 the
code truncates `799 / 2 = 399.5` to `399`, while the claim's `round` formula
yields `400`. -/
theorem c3_counterexample :
    resize_image_dims 2000 1000 799 600 true = (799, 399) ∧
      resize_spec_round 2000 1000 799 600 = (799, 400) ∧
      ((799, 399) : ℕ × ℕ).2 ≠ (((799, 400) : ℤ × ℤ).2).toNat := by
  refine ⟨?_, ?_, by decide⟩
  · norm_num [resize_image_dims, pyInt, Prod.ext_iff]
    rfl
  · norm_num [resize_spec_round, Prod.ext_iff, round_eq]

/-- Claim C3 as amended: with truncation (`int`, floor on nonnegative values) in
place of `round`, the aspect-preserving result of the resize operations is
exactly the spec's formula, with the landscape-fits-width / otherwise-fits-
height tie-break reproduced exactly. -/
theorem c3_aspect_formula (W H tw th : ℕ) (hW : 0 < W) (hH : 0 < H) :
    resize_image_dims W H tw th true = resize_spec_trunc W H tw th := rfl

/-- Witness for C3's amended theorem: the spec's landscape scenario,
2000×1000 into an 800×600 box. -/
theorem c3_aspect_formula_witness :
    0 < 2000 ∧ 0 < 1000 ∧
      resize_image_dims 2000 1000 800 600 true =
        resize_spec_trunc 2000 1000 800 600 :=
  ⟨by decide, by decide,
    c3_aspect_formula 2000 1000 800 600 (by decide) (by decide)⟩

/-- Counterexample for C6: the estimator's trial resize clamps each axis to
the original, so a 100×100 image with `preserve_aspect=false` and requested
box 200×50 is trial-resized to 100×50, not exactly 200×50. -/
theorem c6_counterexample :
    estimate_file_size_dims 100 100 200 50 false = (100, 50) ∧
      ((100, 50) : ℕ × ℕ) ≠ (200, 50) := by
  refine ⟨by decide, by decide⟩

/-- Claim C6 as amended: with `preserve_aspect=false` the resize operation yields
exactly the requested box `(tw, th)`, while the size estimator's trial
resize additionally clamps each axis to the original:
`(min tw W, min th H)`. -/
theorem c6_no_aspect (W H tw th : ℕ) :
    resize_image_dims W H tw th false = (tw, th) ∧
      estimate_file_size_dims W H tw th false = (min tw W, min th H) :=
  ⟨rfl, rfl⟩

/-- Counterexample for C7: a 10000×1 original (positive on both axes) with
target box 800×600 and `preserve_aspect=true` yields height
`int(800 / 10000) = 0`, violating the `height ≥ 1` invariant. -/
theorem c7_counterexample :
    resize_image_dims 10000 1 800 600 true = (800, 0) ∧
      ¬ (1 ≤ (resize_image_dims 10000 1 800 600 true).2) := by
  have h : resize_image_dims 10000 1 800 600 true = (800, 0) := by
    norm_num [resize_image_dims, pyInt, Prod.ext_iff]
  exact ⟨h, by rw [h]; decide⟩

/-- Claim C7 as amended: resolved dimensions are `≥ 1` on both axes for positive
originals and positive target boxes provided the box is not smaller than the
aspect slope — `W ≤ tw·H` and `H ≤ th·W`; extreme aspect ratios outside
these bounds can truncate the non-authoritative axis to 0. -/
theorem c7_output_positive (W H tw th : ℕ) (pa : Bool) (hW : 0 < W)
    (hH : 0 < H) (htw : 0 < tw) (hth : 0 < th) (h1 : W ≤ tw * H)
    (h2 : H ≤ th * W) :
    1 ≤ (resize_image_dims W H tw th pa).1 ∧
      1 ≤ (resize_image_dims W H tw th pa).2 := by
  have hWq : (0 : ℚ) < (W : ℚ) := by exact_mod_cast hW
  have hHq : (0 : ℚ) < (H : ℚ) := by exact_mod_cast hH
  cases pa with
  | false => exact ⟨htw, hth⟩
  | true =>
    simp only [resize_image_dims, if_true]
    split_ifs with hr
    · refine ⟨htw, ?_⟩
      apply one_le_pyInt
      rw [div_div_eq_mul_div, one_le_div hWq]
      exact_mod_cast h1
    · refine ⟨?_, hth⟩
      apply one_le_pyInt
      rw [← mul_div_assoc, one_le_div hHq]
      exact_mod_cast h2

/-- Witness for C7's amended theorem: the spec's portrait scenario,
1000×2000 into an 800×600 box. -/
theorem c7_output_positive_witness :
    1 ≤ (resize_image_dims 1000 2000 800 600 true).1 ∧
      1 ≤ (resize_image_dims 1000 2000 800 600 true).2 :=
  c7_output_positive 1000 2000 800 600 true (by decide) (by decide)
    (by decide) (by decide) (by decide) (by decide)

/-- Counterexample for C2: a 1000×1000 image whose estimator always reports
1000 KB against a 1 KB target.  `calculate_dimensions` makes 12 estimator
calls in total — the probe, the 10 search iterations, and one further call at
the chosen dimensions for the confirmation dialog — so the calls after the
probe number 11, not 10. -/
theorem c2_counterexample :
    calculate_dimensions (fun _ _ => 1000) 1 1000 1000 =
      Except.ok ⟨(505, 505), [(1000, 1000), (505, 505), (257, 257),
        (133, 133), (71, 71), (40, 40), (25, 25), (17, 17), (13, 13),
        (11, 11), (10, 10), (505, 505)]⟩ ∧
      ([(505, 505), (257, 257), (133, 133), (71, 71), (40, 40), (25, 25),
          (17, 17), (13, 13), (11, 11), (10, 10), (505, 505)] :
        List (ℕ × ℕ)).length ≠ 10 := by
  refine ⟨?_, by decide⟩
  norm_num [calculate_dimensions, searchRun, searchStep, initialSearchState,
    pyInt, diffImproves]
  decide

/-- Claim C2 as amended: in the non-fast-path case the search loop performs
exactly 10 estimator calls (the fixed, non-adaptive budget), and
`calculate_dimensions` makes one additional estimator call after the loop, at
the chosen dimensions, for the confirmation dialog — so 11 estimator calls
excluding the initial fast-path probe. -/
theorem c2_call_count (E : ℕ → ℕ → ℚ) (targetKb : ℚ) (W H : ℕ)
    (hpos : 0 < targetKb) (hbig : targetKb < E W H) :
    ∃ r loopCalls, calculate_dimensions E targetKb W H = Except.ok r ∧
      r.calls = (W, H) :: (loopCalls ++ [r.dims]) ∧ loopCalls.length = 10 := by
  simp only [calculate_dimensions]
  rw [if_neg (not_le.mpr hpos), if_neg (not_le.mpr hbig)]
  refine ⟨_, (searchRun E W H targetKb 10 initialSearchState).calls, rfl,
    rfl, ?_⟩
  rw [searchRun_calls_length]
  rfl

/-- Witness for C2's amended theorem at the counterexample's input. -/
theorem c2_call_count_witness :
    ∃ r loopCalls,
      calculate_dimensions (fun _ _ => 1000) 1 1000 1000 = Except.ok r ∧
        r.calls = (1000, 1000) :: (loopCalls ++ [r.dims]) ∧
        loopCalls.length = 10 :=
  c2_call_count (fun _ _ => 1000) 1 1000 1000 (by norm_num) (by norm_num)

/-- Counterexample for C4: an 8×8 image whose estimator reports 100 KB
against a 1 KB target.  The 10-pixel floor makes the solver return 10×10,
which exceeds the original on both axes. -/
theorem c4_counterexample :
    calculate_dimensions (fun _ _ => 100) 1 8 8 =
      Except.ok ⟨(10, 10), [(8, 8), (10, 10), (10, 10), (10, 10), (10, 10),
        (10, 10), (10, 10), (10, 10), (10, 10), (10, 10), (10, 10),
        (10, 10)]⟩ ∧
      ¬ ((10 : ℕ) ≤ 8) := by
  refine ⟨?_, by decide⟩
  norm_num [calculate_dimensions, searchRun, searchStep, initialSearchState,
    pyInt, diffImproves]

/-- Claim C4 as amended: for every estimator and positive target, the solver
never returns dimensions exceeding the original on either axis provided the
original is at least 10 px on each axis; below that, the 10 px floor can push
an axis above the original. -/
theorem c4_no_upscale (E : ℕ → ℕ → ℚ) (targetKb : ℚ) (W H : ℕ)
    (hpos : 0 < targetKb) (hW : 10 ≤ W) (hH : 10 ≤ H) :
    ∃ r, calculate_dimensions E targetKb W H = Except.ok r ∧
      r.dims.1 ≤ W ∧ r.dims.2 ≤ H := by
  have hinv : ScaleInv (searchRun E W H targetKb 10 initialSearchState) :=
    searchRun_inv E W H targetKb 10 initialSearchState
      (by unfold ScaleInv initialSearchState; norm_num)
  obtain ⟨-, -, -, i3, i4⟩ := hinv
  simp only [calculate_dimensions]
  rw [if_neg (not_le.mpr hpos)]
  by_cases hfast : E W H ≤ targetKb
  · rw [if_pos hfast]
    exact ⟨_, rfl, le_refl W, le_refl H⟩
  · rw [if_neg hfast]
    refine ⟨_, rfl, ?_, ?_⟩
    · apply max_le hW
      apply pyInt_le_of_le
      calc (W : ℚ) * (searchRun E W H targetKb 10 initialSearchState).bestScale
          ≤ (W : ℚ) * 1 := mul_le_mul_of_nonneg_left i4 (by positivity)
        _ = (W : ℚ) := mul_one _
    · apply max_le hH
      apply pyInt_le_of_le
      calc (H : ℚ) * (searchRun E W H targetKb 10 initialSearchState).bestScale
          ≤ (H : ℚ) * 1 := mul_le_mul_of_nonneg_left i4 (by positivity)
        _ = (H : ℚ) := mul_one _

/-- Witness for C4's amended theorem: a 20×30 image against a 1 KB target
with a constant 100 KB estimator. -/
theorem c4_no_upscale_witness :
    ∃ r, calculate_dimensions (fun _ _ => 100) 1 20 30 = Except.ok r ∧
      r.dims.1 ≤ 20 ∧ r.dims.2 ≤ 30 :=
  c4_no_upscale (fun _ _ => 100) 1 20 30 (by norm_num) (by norm_num)
    (by norm_num)

/-- Counterexample for C5: a 5×5 image whose estimator reports 1 KB against a
10 KB target takes the fast path and returns 5×5, below the 10-pixel floor. -/
theorem c5_counterexample :
    calculate_dimensions (fun _ _ => 1) 10 5 5 =
      Except.ok ⟨(5, 5), [(5, 5)]⟩ ∧
      ¬ (10 ≤ (5 : ℕ)) := by
  refine ⟨?_, by decide⟩
  norm_num [calculate_dimensions]

/-- Claim C5 as amended: in the non-fast-path case the returned dimensions
are at least 10 px on each axis regardless of how small the target is, and
every trial candidate passed to the estimator after the initial probe is
likewise clamped to the 10-pixel floor per axis; the fast path instead
returns the original dimensions, which may lie below the floor. -/
theorem c5_floor_non_fast (E : ℕ → ℕ → ℚ) (targetKb : ℚ) (W H : ℕ)
    (hpos : 0 < targetKb) (hbig : targetKb < E W H) :
    ∃ r, calculate_dimensions E targetKb W H = Except.ok r ∧
      10 ≤ r.dims.1 ∧ 10 ≤ r.dims.2 ∧
      ∀ p ∈ r.calls.tail, 10 ≤ p.1 ∧ 10 ≤ p.2 := by
  have hfloor : ∀ p ∈ (searchRun E W H targetKb 10 initialSearchState).calls,
      10 ≤ p.1 ∧ 10 ≤ p.2 := by
    apply searchRun_calls_floor
    intro q hq
    simp [initialSearchState] at hq
  simp only [calculate_dimensions]
  rw [if_neg (not_le.mpr hpos), if_neg (not_le.mpr hbig)]
  refine ⟨_, rfl, le_max_left _ _, le_max_left _ _, ?_⟩
  intro p hp
  dsimp only at hp
  rw [List.cons_append, List.tail_cons] at hp
  rcases List.mem_append.mp hp with hp | hp
  · exact hfloor p hp
  · rw [List.mem_singleton] at hp
    subst hp
    exact ⟨le_max_left _ _, le_max_left _ _⟩

/-- Witness for C5's amended theorem: a 5×5 image against a 1 KB target with
a constant 100 KB estimator is clamped up to the floor. -/
theorem c5_floor_non_fast_witness :
    ∃ r, calculate_dimensions (fun _ _ => 100) 1 5 5 = Except.ok r ∧
      10 ≤ r.dims.1 ∧ 10 ≤ r.dims.2 ∧
      ∀ p ∈ r.calls.tail, 10 ≤ p.1 ∧ 10 ≤ p.2 :=
  c5_floor_non_fast (fun _ _ => 100) 1 5 5 (by norm_num) (by norm_num)

end PhotoReducer
